import Mathlib

/-!
Shallow embedding of the checkrk storefront core: the cart context
(`addToCart`, `removeFromCart`, `updateQuantity`, `clearCart`,
`getCartTotal`, `checkout`) and the admin dashboard handlers
(`handleProductSubmit`, `handleDeleteProduct`, `handleUpdateOrderStatus`)
together with their role gate.

Rows of the backing tables (`products`, `cart_items`, `orders`,
`order_items`) are modelled as lists of records; row ids generated by the
store are modelled by a `nextId` counter.  Decimal prices are modelled as
exact rationals.  Store writes issued through the generic query interface
follow its standard semantics: a filtered update or delete that matches
zero rows succeeds with no error.  Toast notifications are the observable
success/error channel of every operation.
-/

namespace Checkrk

/-- A row of the `products` table. -/
structure ProductRow where
  id : Nat
  name : String
  description : String
  price : ℚ
  image_url : String
  category : String
  is_featured : Bool
deriving DecidableEq, Repr

/-- A row of the `cart_items` table. -/
structure CartItemRow where
  id : Nat
  user_id : Nat
  product_id : Nat
  quantity : Int
deriving DecidableEq, Repr

/-- Order status values offered by the admin dashboard's status select. -/
inductive OrderStatus where
  | pending
  | preparing
  | ready
  | delivered
deriving DecidableEq, Repr

/-- A row of the `orders` table. -/
structure OrderRow where
  id : Nat
  user_id : Nat
  total_amount : ℚ
  status : OrderStatus
deriving DecidableEq, Repr

/-- A row of the `order_items` table. -/
structure OrderItemRow where
  id : Nat
  order_id : Nat
  product_id : Nat
  quantity : Int
  price : ℚ
deriving DecidableEq, Repr

/-- The persistent store: the four tables touched by the cart and admin
flows, plus a counter supplying the ids the store generates on insert. -/
structure Store where
  products : List ProductRow
  cart_items : List CartItemRow
  orders : List OrderRow
  order_items : List OrderItemRow
  nextId : Nat
deriving DecidableEq, Repr

/-- The in-memory cart line of `CartContext`: a cart row joined with its
product. -/
structure CartItem where
  id : Nat
  product_id : Nat
  name : String
  price : ℚ
  quantity : Int
  image_url : String
deriving DecidableEq, Repr

/-- A toast notification, the user-visible outcome channel. -/
inductive Toast where
  | success (msg : String)
  | error (msg : String)
deriving DecidableEq, Repr

/-- State of the cart context: the store plus the loaded snapshot. -/
structure CartState where
  store : Store
  cartItems : List CartItem
deriving DecidableEq, Repr

/-- The client-side join performed by `fetchCartItems`: each cart row is
matched against the product list; a missing product (or an empty product
name, via the JavaScript or-else) degrades to an "Unknown Product"
placeholder with price 0 instead of failing the read. -/
def joinCart (rows : List CartItemRow) (products : List ProductRow) : List CartItem :=
  rows.map fun item =>
    match products.find? (fun p => p.id == item.product_id) with
    | some product =>
        { id := item.id
          product_id := item.product_id
          name := if product.name = "" then "Unknown Product" else product.name
          price := product.price
          quantity := item.quantity
          image_url := product.image_url }
    | none =>
        { id := item.id
          product_id := item.product_id
          name := "Unknown Product"
          price := 0
          quantity := item.quantity
          image_url := "" }

/-- `fetchCartItems`: reload the signed-in user's cart rows and the product
table, join them, and replace the in-memory snapshot. -/
def fetchCartItems (uid : Nat) (s : CartState) : CartState :=
  { s with cartItems :=
      joinCart (s.store.cart_items.filter (fun r => r.user_id == uid)) s.store.products }

/-- `addToCart`: with no user, an error toast and no mutation; otherwise if
a cart row for (user, product) exists its quantity is incremented by one,
else a new row with quantity 1 is inserted, and the cart is refetched. -/
def addToCart (user : Option Nat) (productId : Nat) (s : CartState) :
    CartState × List Toast :=
  match user with
  | none => (s, [Toast.error "Please login to add items to cart"])
  | some uid =>
    match s.store.cart_items.find? (fun r => r.user_id == uid && r.product_id == productId) with
    | some existingItem =>
        let store :=
          { s.store with
            cart_items := s.store.cart_items.map fun r =>
              if r.id == existingItem.id then { r with quantity := r.quantity + 1 } else r }
        (fetchCartItems uid { s with store := store }, [])
    | none =>
        let store :=
          { s.store with
            cart_items := s.store.cart_items ++
              [{ id := s.store.nextId, user_id := uid, product_id := productId, quantity := 1 }]
            nextId := s.store.nextId + 1 }
        (fetchCartItems uid { s with store := store }, [])

/-- `removeFromCart`: with no user, a silent return; otherwise delete every
cart row matching (user, product) — deleting zero rows is not an error —
and refetch. -/
def removeFromCart (user : Option Nat) (productId : Nat) (s : CartState) :
    CartState × List Toast :=
  match user with
  | none => (s, [])
  | some uid =>
      let store :=
        { s.store with
          cart_items := s.store.cart_items.filter fun r =>
            !(r.user_id == uid && r.product_id == productId) }
      (fetchCartItems uid { s with store := store }, [])

/-- `updateQuantity`: with no user, a silent return; a non-positive
quantity delegates to `removeFromCart`; otherwise a filtered update sets
the quantity on every matching row (updating zero rows is not an error)
and the cart is refetched. -/
def updateQuantity (user : Option Nat) (productId : Nat) (quantity : Int) (s : CartState) :
    CartState × List Toast :=
  match user with
  | none => (s, [])
  | some uid =>
    if quantity ≤ 0 then
      removeFromCart user productId s
    else
      let store :=
        { s.store with
          cart_items := s.store.cart_items.map fun r =>
            if r.user_id == uid && r.product_id == productId then
              { r with quantity := quantity }
            else r }
      (fetchCartItems uid { s with store := store }, [])

/-- `clearCart`: with no user, a silent return; otherwise delete every cart
row of the user and empty the in-memory snapshot. -/
def clearCart (user : Option Nat) (s : CartState) : CartState × List Toast :=
  match user with
  | none => (s, [])
  | some uid =>
      ({ store :=
          { s.store with cart_items := s.store.cart_items.filter fun r => !(r.user_id == uid) }
         cartItems := [] }, [])

/-- `getCartTotal`: fold over the loaded snapshot accumulating
price × quantity. -/
def getCartTotal (s : CartState) : ℚ :=
  s.cartItems.foldl (fun total item => total + item.price * (item.quantity : ℚ)) 0

/-- The `order_items` rows built at checkout, one per loaded cart line,
copying product, quantity and price; ids are supplied by the store's
counter. -/
def mkOrderItems (orderId : Nat) : Nat → List CartItem → List OrderItemRow
  | _, [] => []
  | idCounter, item :: rest =>
      { id := idCounter
        order_id := orderId
        product_id := item.product_id
        quantity := item.quantity
        price := item.price } :: mkOrderItems orderId (idCounter + 1) rest

/-- `checkout`: with no user or an empty snapshot, the "Cart is empty"
error toast and no mutation; otherwise insert one `orders` row with status
pending and the computed total, insert one `order_items` row per cart
line, clear the cart, and report success. -/
def checkout (user : Option Nat) (s : CartState) : CartState × List Toast :=
  match user with
  | none => (s, [Toast.error "Cart is empty"])
  | some uid =>
    if s.cartItems.isEmpty then
      (s, [Toast.error "Cart is empty"])
    else
      let totalAmount := getCartTotal s
      let orderId := s.store.nextId
      let store1 :=
        { s.store with
          orders := s.store.orders ++
            [({ id := orderId, user_id := uid, total_amount := totalAmount
                status := OrderStatus.pending } : OrderRow)]
          nextId := s.store.nextId + 1 }
      let newItems := mkOrderItems orderId store1.nextId s.cartItems
      let store2 :=
        { store1 with
          order_items := store1.order_items ++ newItems
          nextId := store1.nextId + s.cartItems.length }
      ((clearCart (some uid) { s with store := store2 }).1,
       [Toast.success "Order placed successfully!"])

/-- Authorization level of a profile. -/
inductive Role where
  | user
  | admin
deriving DecidableEq, Repr

/-- A row of the `profiles` table, as used by the admin gate. -/
structure Profile where
  id : Nat
  role : Role
deriving DecidableEq, Repr

/-- The admin product form. -/
structure ProductForm where
  name : String
  description : String
  price : ℚ
  image_url : String
  category : String
  is_featured : Bool
deriving DecidableEq, Repr

/-- `handleProductSubmit`: validates that the trimmed name is non-empty,
the price is greater than 0 and the trimmed category is non-empty — in
that order, each failure reported by an error toast naming the field and
writing nothing — then updates the edited product or inserts a new one
with the trimmed fields. -/
def handleProductSubmit (editingProduct : Option Nat) (form : ProductForm) (store : Store) :
    Store × List Toast :=
  if form.name.trim = "" then
    (store, [Toast.error "Product name is required"])
  else if form.price ≤ 0 then
    (store, [Toast.error "Price must be greater than 0"])
  else if form.category.trim = "" then
    (store, [Toast.error "Category is required"])
  else
    match editingProduct with
    | some pid =>
        ({ store with
            products := store.products.map fun p =>
              if p.id == pid then
                { p with
                  name := form.name.trim
                  description := form.description.trim
                  price := form.price
                  image_url := form.image_url.trim
                  category := form.category.trim
                  is_featured := form.is_featured }
              else p },
         [Toast.success "Product updated successfully!"])
    | none =>
        ({ store with
            products := store.products ++
              [{ id := store.nextId
                 name := form.name.trim
                 description := form.description.trim
                 price := form.price
                 image_url := form.image_url.trim
                 category := form.category.trim
                 is_featured := form.is_featured }]
            nextId := store.nextId + 1 },
         [Toast.success "Product created successfully!"])

/-- `handleDeleteProduct`: delete the product row by id. -/
def handleDeleteProduct (pid : Nat) (store : Store) : Store × List Toast :=
  ({ store with products := store.products.filter fun p => !(p.id == pid) },
   [Toast.success "Product deleted successfully!"])

/-- `handleUpdateOrderStatus`: set the status of the order with the given
id; the status select offers exactly pending, preparing, ready and
delivered, so the argument ranges over `OrderStatus`. -/
def handleUpdateOrderStatus (orderId : Nat) (newStatus : OrderStatus) (store : Store) :
    Store × List Toast :=
  ({ store with
      orders := store.orders.map fun o =>
        if o.id == orderId then { o with status := newStatus } else o },
   [Toast.success "Order status updated!"])

/-- The operations reachable from the admin dashboard. -/
inductive AdminOp where
  | createProduct (form : ProductForm)
  | updateProduct (pid : Nat) (form : ProductForm)
  | deleteProduct (pid : Nat)
  | setStatus (orderId : Nat) (newStatus : OrderStatus)

/-- Outcome of an admin dashboard interaction: either the Access Denied
screen, or the toasts of the executed handler. -/
inductive AdminOutcome where
  | accessDenied
  | performed (toasts : List Toast)
deriving DecidableEq, Repr

/-- The role gate of `AdminDashboard`: a caller with no profile or a
non-admin profile is shown Access Denied and no handler can run; an admin
reaches the requested handler. -/
def adminDashboard (profile : Option Profile) (op : AdminOp) (store : Store) :
    Store × AdminOutcome :=
  match profile with
  | none => (store, AdminOutcome.accessDenied)
  | some p =>
    if p.role = Role.admin then
      match op with
      | AdminOp.createProduct form =>
          let r := handleProductSubmit none form store
          (r.1, AdminOutcome.performed r.2)
      | AdminOp.updateProduct pid form =>
          let r := handleProductSubmit (some pid) form store
          (r.1, AdminOutcome.performed r.2)
      | AdminOp.deleteProduct pid =>
          let r := handleDeleteProduct pid store
          (r.1, AdminOutcome.performed r.2)
      | AdminOp.setStatus oid st =>
          let r := handleUpdateOrderStatus oid st store
          (r.1, AdminOutcome.performed r.2)
    else
      (store, AdminOutcome.accessDenied)

/-- An empty store, for concrete instantiations. -/
def emptyStore : Store :=
  { products := [], cart_items := [], orders := [], order_items := [], nextId := 0 }

/-- An empty cart state over the empty store. -/
def emptyCartState : CartState :=
  { store := emptyStore, cartItems := [] }

/-- A sample catalog product. -/
def exProductA : ProductRow :=
  { id := 1, name := "Margherita Pizza", description := "Classic pizza", price := 16.99
    image_url := "a", category := "pizza", is_featured := true }

/-- A second sample catalog product. -/
def exProductB : ProductRow :=
  { id := 2, name := "Garlic Bread", description := "Side", price := 8.99
    image_url := "b", category := "appetizer", is_featured := false }

/-- The loaded snapshot of the spec's running example: two lines with
price 16.99 quantity 2 and price 8.99 quantity 1. -/
def exSnapshot : List CartItem :=
  [ { id := 0, product_id := 1, name := "Margherita Pizza", price := 16.99, quantity := 2
      image_url := "a" },
    { id := 1, product_id := 2, name := "Garlic Bread", price := 8.99, quantity := 1
      image_url := "b" } ]

/-- A cart state of user 7 holding the example snapshot, in sync with the
store. -/
def exLoadedState : CartState :=
  { store :=
      { products := [exProductA, exProductB]
        cart_items :=
          [ { id := 0, user_id := 7, product_id := 1, quantity := 2 },
            { id := 1, user_id := 7, product_id := 2, quantity := 1 } ]
        orders := [], order_items := [], nextId := 2 }
    cartItems := exSnapshot }

/-- A store holding a single pending order. -/
def exOrderStore : Store :=
  { emptyStore with
      orders := [ { id := 5, user_id := 7, total_amount := 42.97, status := OrderStatus.pending } ]
      nextId := 6 }

/-- The example snapshot over a different store, to exhibit that the total
depends only on the snapshot. -/
def exShiftedState : CartState :=
  { store := exOrderStore, cartItems := exSnapshot }

/-- A state with a catalog and an empty cart. -/
def exCatalogState : CartState :=
  { store := { emptyStore with products := [exProductA, exProductB], nextId := 10 }
    cartItems := [] }

/-- An admin product form with an invalid price of 0. -/
def exForm : ProductForm :=
  { name := "Pepperoni Pizza", description := "Traditional", price := 0
    image_url := "", category := "pizza", is_featured := false }

/-!
Helper lemmas shared by the claim theorems below.
-/

/-- The fold of `getCartTotal` accumulates the sum of price × quantity. -/
theorem foldl_price_add (l : List CartItem) :
    ∀ a : ℚ, l.foldl (fun total item => total + item.price * (item.quantity : ℚ)) a
      = a + (l.map fun item => item.price * (item.quantity : ℚ)).sum := by
  induction l with
  | nil => intro a; simp
  | cons x xs ih =>
      intro a
      simp only [List.foldl_cons, List.map_cons, List.sum_cons, ih]
      ring

/-- `getCartTotal` equals the sum of price × quantity over the snapshot. -/
theorem getCartTotal_eq_sum (s : CartState) :
    getCartTotal s = (s.cartItems.map fun item => item.price * (item.quantity : ℚ)).sum := by
  simpa using foldl_price_add s.cartItems 0

/-- Length of the order line list built at checkout. -/
theorem mkOrderItems_length (oid : Nat) :
    ∀ (n : Nat) (items : List CartItem), (mkOrderItems oid n items).length = items.length := by
  intro n items
  induction items generalizing n with
  | nil => rfl
  | cons x xs ih => simp [mkOrderItems, ih]

/-- Each order line built at checkout copies product, quantity and price
from its cart line and points at the created order. -/
theorem mkOrderItems_zip (oid : Nat) :
    ∀ (n : Nat) (items : List CartItem) (pr : OrderItemRow × CartItem),
      pr ∈ (mkOrderItems oid n items).zip items →
        pr.1.order_id = oid ∧ pr.1.product_id = pr.2.product_id
        ∧ pr.1.quantity = pr.2.quantity ∧ pr.1.price = pr.2.price := by
  intro n items
  induction items generalizing n with
  | nil => intro pr h; simp [mkOrderItems] at h
  | cons x xs ih =>
      intro pr h
      simp only [mkOrderItems, List.zip_cons_cons, List.mem_cons] at h
      rcases h with h | h
      · subst h; exact ⟨rfl, rfl, rfl, rfl⟩
      · exact ih (n + 1) pr h

/-!
Claim theorems.
-/

/-- C10: a cart operation invoked with no authenticated user performs no
store mutation; `removeFromCart`, `updateQuantity` and `clearCart` return
silently with no toast at all, while `checkout` reports the empty-cart
error toast even when cart lines are loaded; none of them produces an
Unauthorized-style error. -/
theorem noUser_cart_ops (productId : Nat) (q : Int) (s : CartState) :
    removeFromCart none productId s = (s, [])
    ∧ updateQuantity none productId q s = (s, [])
    ∧ clearCart none s = (s, [])
    ∧ checkout none s = (s, [Toast.error "Cart is empty"]) :=
  ⟨rfl, rfl, rfl, rfl⟩

/-- C6: checkout with no loaded cart lines mutates nothing and reports the
"Cart is empty" error toast. -/
theorem checkout_empty (user : Option Nat) (s : CartState) (h : s.cartItems = []) :
    checkout user s = (s, [Toast.error "Cart is empty"]) := by
  cases user with
  | none => rfl
  | some uid => simp [checkout, h]

/-- C6 witness: checkout on the empty cart state of user 3. -/
theorem checkout_empty_witness :
    emptyCartState.cartItems = []
    ∧ checkout (some 3) emptyCartState = (emptyCartState, [Toast.error "Cart is empty"]) :=
  ⟨rfl, checkout_empty (some 3) emptyCartState rfl⟩

/-- C5: for a signed-in user, `updateQuantity` with a non-positive
quantity is exactly `removeFromCart`: afterwards the line for
(user, product) is absent and precisely the non-matching rows remain. -/
theorem updateQuantity_nonpos (u productId : Nat) (q : Int) (s : CartState) (hq : q ≤ 0) :
    updateQuantity (some u) productId q s = removeFromCart (some u) productId s
    ∧ (updateQuantity (some u) productId q s).1.store.cart_items
        = s.store.cart_items.filter (fun r => !(r.user_id == u && r.product_id == productId))
    ∧ ∀ r ∈ (updateQuantity (some u) productId q s).1.store.cart_items,
        ¬(r.user_id = u ∧ r.product_id = productId) := by
  have h2 : (updateQuantity (some u) productId q s).1.store.cart_items
      = s.store.cart_items.filter (fun r => !(r.user_id == u && r.product_id == productId)) := by
    simp [updateQuantity, hq, removeFromCart, fetchCartItems]
  refine ⟨by simp [updateQuantity, hq], h2, ?_⟩
  intro r hr
  rw [h2] at hr
  rcases List.mem_filter.mp hr with ⟨-, hpred⟩
  rintro ⟨h1, hp⟩
  subst h1
  subst hp
  simp at hpred

/-- C5 witness: quantity 0 for user 7 on product 1 of the loaded example
state. -/
theorem updateQuantity_nonpos_witness :
    (0 : Int) ≤ 0
    ∧ (updateQuantity (some 7) 1 0 exLoadedState = removeFromCart (some 7) 1 exLoadedState
       ∧ (updateQuantity (some 7) 1 0 exLoadedState).1.store.cart_items
           = exLoadedState.store.cart_items.filter (fun r => !(r.user_id == 7 && r.product_id == 1))
       ∧ ∀ r ∈ (updateQuantity (some 7) 1 0 exLoadedState).1.store.cart_items,
           ¬(r.user_id = 7 ∧ r.product_id = 1)) :=
  ⟨by decide, updateQuantity_nonpos 7 1 0 exLoadedState (by decide)⟩

/-- C2 counterexample: user 0 has an empty cart, so no line for product 1
exists; updateQuantity with the positive quantity 3 does not fail at all —
it emits no toast and leaves the state untouched — refuting that the
operation fails with NotFound. -/
theorem updateQuantity_missing_counterexample :
    (updateQuantity (some 0) 1 3 emptyCartState).2 = []
    ∧ (updateQuantity (some 0) 1 3 emptyCartState).1 = emptyCartState :=
  ⟨rfl, rfl⟩

/-- C2 (amended): calling updateQuantity with a positive quantity when no
cart line exists for (user, product) silently succeeds as a no-op: the
filtered update matches zero rows, which is not an error, so no toast is
emitted, the store is unchanged and no line is created. -/
theorem updateQuantity_missing_silent (u productId : Nat) (q : Int) (s : CartState)
    (hq : 0 < q)
    (hnone : ∀ r ∈ s.store.cart_items, ¬(r.user_id = u ∧ r.product_id = productId)) :
    (updateQuantity (some u) productId q s).2 = []
    ∧ (updateQuantity (some u) productId q s).1.store = s.store
    ∧ ∀ r ∈ (updateQuantity (some u) productId q s).1.store.cart_items,
        ¬(r.user_id = u ∧ r.product_id = productId) := by
  have hq' : ¬ q ≤ 0 := not_le.mpr hq
  have hmap : (s.store.cart_items.map fun r =>
      if r.user_id == u && r.product_id == productId then { r with quantity := q } else r)
      = s.store.cart_items := by
    conv_rhs => rw [← List.map_id s.store.cart_items]
    apply List.map_congr_left
    intro r hr
    cases hb : (r.user_id == u && r.product_id == productId) with
    | false => simp [hb]
    | true => exact absurd (by simpa using hb) (hnone r hr)
  have hstore : (updateQuantity (some u) productId q s).1.store = s.store := by
    simp only [updateQuantity, if_neg hq', fetchCartItems]
    rw [hmap]
  exact ⟨by simp [updateQuantity, hq'], hstore, by rw [hstore]; exact hnone⟩

/-- C2 witness (amended claim): user 0, product 1, quantity 3 on the empty
cart state. -/
theorem updateQuantity_missing_silent_witness :
    (0 : Int) < 3
    ∧ (∀ r ∈ emptyCartState.store.cart_items, ¬(r.user_id = 0 ∧ r.product_id = 1))
    ∧ ((updateQuantity (some 0) 1 3 emptyCartState).2 = []
       ∧ (updateQuantity (some 0) 1 3 emptyCartState).1.store = emptyCartState.store
       ∧ ∀ r ∈ (updateQuantity (some 0) 1 3 emptyCartState).1.store.cart_items,
           ¬(r.user_id = 0 ∧ r.product_id = 1)) :=
  ⟨by decide, by simp [emptyCartState, emptyStore],
   updateQuantity_missing_silent 0 1 3 emptyCartState (by decide)
     (by simp [emptyCartState, emptyStore])⟩

/-- C3: with no profile or a non-admin profile, every admin dashboard
operation is stopped by the role gate: the outcome is the Access Denied
screen and the store is not mutated. -/
theorem adminDashboard_forbidden (profile : Option Profile) (op : AdminOp) (store : Store)
    (h : profile.map Profile.role ≠ some Role.admin) :
    adminDashboard profile op store = (store, AdminOutcome.accessDenied) := by
  cases profile with
  | none => rfl
  | some p =>
      have hp : p.role ≠ Role.admin := fun hr => h (by simp [hr])
      simp [adminDashboard, hp]

/-- C3 witness: a profile with the user role invoking deleteProduct. -/
theorem adminDashboard_forbidden_witness :
    (some { id := 3, role := Role.user } : Option Profile).map Profile.role ≠ some Role.admin
    ∧ adminDashboard (some { id := 3, role := Role.user }) (AdminOp.deleteProduct 1) exOrderStore
        = (exOrderStore, AdminOutcome.accessDenied) :=
  ⟨by decide,
   adminDashboard_forbidden (some { id := 3, role := Role.user }) (AdminOp.deleteProduct 1)
     exOrderStore (by decide)⟩

/-- C7: the cart total is the literal sum of price × quantity over the
loaded lines, it depends only on the in-memory snapshot (no store access),
and on the example snapshot — price 16.99 quantity 2 plus price 8.99
quantity 1 — it is 42.97. -/
theorem getCartTotal_spec :
    (∀ s : CartState,
        getCartTotal s = (s.cartItems.map fun item => item.price * (item.quantity : ℚ)).sum)
    ∧ (∀ s t : CartState, s.cartItems = t.cartItems → getCartTotal s = getCartTotal t)
    ∧ getCartTotal exLoadedState = 42.97 := by
  refine ⟨getCartTotal_eq_sum, ?_, ?_⟩
  · intro s t h
    simp [getCartTotal, h]
  · norm_num [getCartTotal, exLoadedState, exSnapshot]

/-- C7 witness: the same snapshot over two different stores yields the
same total. -/
theorem getCartTotal_spec_witness :
    exLoadedState.cartItems = exShiftedState.cartItems
    ∧ getCartTotal exLoadedState = getCartTotal exShiftedState :=
  ⟨rfl, getCartTotal_spec.2.1 exLoadedState exShiftedState rfl⟩

/-- C8: a product submission whose trimmed name is empty, whose price is
not greater than 0, or whose trimmed category is empty writes nothing —
the store is returned unchanged — and reports exactly the error toast
naming the first offending field, checked in the order name, price,
category. -/
theorem handleProductSubmit_invalid (editing : Option Nat) (form : ProductForm) (store : Store)
    (h : form.name.trim = "" ∨ form.price ≤ 0 ∨ form.category.trim = "") :
    (handleProductSubmit editing form store).1 = store
    ∧ (form.name.trim = "" →
        (handleProductSubmit editing form store).2 = [Toast.error "Product name is required"])
    ∧ (form.name.trim ≠ "" → form.price ≤ 0 →
        (handleProductSubmit editing form store).2 = [Toast.error "Price must be greater than 0"])
    ∧ (form.name.trim ≠ "" → ¬ form.price ≤ 0 → form.category.trim = "" →
        (handleProductSubmit editing form store).2 = [Toast.error "Category is required"]) := by
  refine ⟨?_, ?_, ?_, ?_⟩
  · rcases h with h1 | h2 | h3
    · simp [handleProductSubmit, h1]
    · by_cases hn : form.name.trim = ""
      · simp [handleProductSubmit, hn]
      · simp [handleProductSubmit, hn, h2]
    · by_cases hn : form.name.trim = ""
      · simp [handleProductSubmit, hn]
      · by_cases hp : form.price ≤ 0
        · simp [handleProductSubmit, hn, hp]
        · simp [handleProductSubmit, hn, hp, h3]
  · intro h1
    simp [handleProductSubmit, h1]
  · intro hn hp
    simp [handleProductSubmit, hn, hp]
  · intro hn hp hc
    simp [handleProductSubmit, hn, hp, hc]

/-- C8 witness: a create submission with price 0 is rejected with the
price validation toast and writes nothing. -/
theorem handleProductSubmit_invalid_witness :
    (exForm.name.trim = "" ∨ exForm.price ≤ 0 ∨ exForm.category.trim = "")
    ∧ ((handleProductSubmit none exForm emptyStore).1 = emptyStore
       ∧ (exForm.name.trim = "" →
           (handleProductSubmit none exForm emptyStore).2 = [Toast.error "Product name is required"])
       ∧ (exForm.name.trim ≠ "" → exForm.price ≤ 0 →
           (handleProductSubmit none exForm emptyStore).2
             = [Toast.error "Price must be greater than 0"])
       ∧ (exForm.name.trim ≠ "" → ¬ exForm.price ≤ 0 → exForm.category.trim = "" →
           (handleProductSubmit none exForm emptyStore).2 = [Toast.error "Category is required"])) :=
  ⟨Or.inr (Or.inl (by decide)),
   handleProductSubmit_invalid none exForm emptyStore (Or.inr (Or.inl (by decide)))⟩

/-- Pairs of a mapped list zipped with the original list relate by the
mapping function. -/
theorem zip_map_self {α β : Type} (f : α → β) :
    ∀ (l : List α) (pr : β × α), pr ∈ (l.map f).zip l → pr.1 = f pr.2 := by
  intro l
  induction l with
  | nil =>
      intro pr h
      simp at h
  | cons x xs ih =>
      intro pr h
      simp only [List.map_cons, List.zip_cons_cons, List.mem_cons] at h
      rcases h with h | h
      · subst h; rfl
      · exact ih pr h

/-- C9: updating an order's status accepts exactly the four dashboard
statuses and enforces no transition discipline: from any current status
the matching order's status becomes the requested status, every other
field of every order and every other table is untouched, and success is
reported. -/
theorem handleUpdateOrderStatus_spec (orderId : Nat) (newStatus : OrderStatus) (store : Store) :
    newStatus ∈ [OrderStatus.pending, OrderStatus.preparing, OrderStatus.ready,
      OrderStatus.delivered]
    ∧ (handleUpdateOrderStatus orderId newStatus store).2 = [Toast.success "Order status updated!"]
    ∧ (handleUpdateOrderStatus orderId newStatus store).1.products = store.products
    ∧ (handleUpdateOrderStatus orderId newStatus store).1.cart_items = store.cart_items
    ∧ (handleUpdateOrderStatus orderId newStatus store).1.order_items = store.order_items
    ∧ (handleUpdateOrderStatus orderId newStatus store).1.orders.length = store.orders.length
    ∧ ∀ pr ∈ (handleUpdateOrderStatus orderId newStatus store).1.orders.zip store.orders,
        pr.1.id = pr.2.id ∧ pr.1.user_id = pr.2.user_id
        ∧ pr.1.total_amount = pr.2.total_amount
        ∧ pr.1.status = (if pr.2.id = orderId then newStatus else pr.2.status) := by
  refine ⟨by cases newStatus <;> simp, rfl, rfl, rfl, rfl,
    by simp [handleUpdateOrderStatus], ?_⟩
  intro pr hpr
  have horders : (handleUpdateOrderStatus orderId newStatus store).1.orders
      = store.orders.map
          (fun o => if o.id == orderId then { o with status := newStatus } else o) := rfl
  rw [horders] at hpr
  have h1 : pr.1 =
      (fun o => if o.id == orderId then { o with status := newStatus } else o) pr.2 :=
    zip_map_self (fun o => if o.id == orderId then { o with status := newStatus } else o)
      store.orders pr hpr
  by_cases hid : pr.2.id = orderId
  · simp [h1, hid]
  · have hb : (pr.2.id == orderId) = false := by simpa using hid
    simp [h1, hb, hid]

/-- C9 witness: setting order 5 of the example order store to ready. -/
theorem handleUpdateOrderStatus_spec_witness :
    OrderStatus.ready ∈ [OrderStatus.pending, OrderStatus.preparing, OrderStatus.ready,
      OrderStatus.delivered]
    ∧ (handleUpdateOrderStatus 5 OrderStatus.ready exOrderStore).2
        = [Toast.success "Order status updated!"]
    ∧ (handleUpdateOrderStatus 5 OrderStatus.ready exOrderStore).1.products
        = exOrderStore.products
    ∧ (handleUpdateOrderStatus 5 OrderStatus.ready exOrderStore).1.cart_items
        = exOrderStore.cart_items
    ∧ (handleUpdateOrderStatus 5 OrderStatus.ready exOrderStore).1.order_items
        = exOrderStore.order_items
    ∧ (handleUpdateOrderStatus 5 OrderStatus.ready exOrderStore).1.orders.length
        = exOrderStore.orders.length
    ∧ ∀ pr ∈ (handleUpdateOrderStatus 5 OrderStatus.ready exOrderStore).1.orders.zip
        exOrderStore.orders,
        pr.1.id = pr.2.id ∧ pr.1.user_id = pr.2.user_id
        ∧ pr.1.total_amount = pr.2.total_amount
        ∧ pr.1.status = (if pr.2.id = 5 then OrderStatus.ready else pr.2.status) :=
  handleUpdateOrderStatus_spec 5 OrderStatus.ready exOrderStore

/-- C4: for a user with no cart line for the product, over a store whose
row ids are below the id counter, adding the product twice yields exactly
one matching cart line, never two: the first add creates the single
matching line with quantity 1 and the second add leaves a single matching
line with quantity 2. -/
theorem addToCart_twice (u p : Nat) (s : CartState)
    (hfresh : ∀ r ∈ s.store.cart_items, r.id < s.store.nextId)
    (hnone : ∀ r ∈ s.store.cart_items, ¬(r.user_id = u ∧ r.product_id = p)) :
    ((addToCart (some u) p s).1.store.cart_items.filter
        (fun r => r.user_id == u && r.product_id == p)).length = 1
    ∧ (∀ r ∈ (addToCart (some u) p s).1.store.cart_items,
        r.user_id = u → r.product_id = p → r.quantity = 1)
    ∧ ((addToCart (some u) p (addToCart (some u) p s).1).1.store.cart_items.filter
        (fun r => r.user_id == u && r.product_id == p)).length = 1
    ∧ ∀ r ∈ (addToCart (some u) p (addToCart (some u) p s).1).1.store.cart_items,
        r.user_id = u → r.product_id = p → r.quantity = 2 := by
  have hpredf : ∀ r ∈ s.store.cart_items, (r.user_id == u && r.product_id == p) = false := by
    intro r hr
    cases hb : (r.user_id == u && r.product_id == p) with
    | false => rfl
    | true => exact absurd (by simpa using hb) (hnone r hr)
  have h1 : s.store.cart_items.find? (fun r => r.user_id == u && r.product_id == p) = none :=
    List.find?_eq_none.mpr (fun r hr => by simp [hpredf r hr])
  have hfilter0 : s.store.cart_items.filter (fun r => r.user_id == u && r.product_id == p)
      = [] :=
    List.filter_eq_nil_iff.mpr (fun r hr => by simp [hpredf r hr])
  generalize hst1 : (addToCart (some u) p s).1 = st1
  have e1 : st1.store
      = { products := s.store.products
          cart_items := s.store.cart_items ++
            [({ id := s.store.nextId, user_id := u, product_id := p
                quantity := 1 } : CartItemRow)]
          orders := s.store.orders
          order_items := s.store.order_items
          nextId := s.store.nextId + 1 } := by
    rw [← hst1]
    simp only [addToCart, h1, fetchCartItems]
  have e1c : st1.store.cart_items
      = s.store.cart_items ++
          [({ id := s.store.nextId, user_id := u, product_id := p
              quantity := 1 } : CartItemRow)] := by
    rw [e1]
  have hfilter1 : st1.store.cart_items.filter (fun r => r.user_id == u && r.product_id == p)
      = [({ id := s.store.nextId, user_id := u, product_id := p
            quantity := 1 } : CartItemRow)] := by
    rw [e1c, List.filter_append, hfilter0]
    simp
  have hfind2 : st1.store.cart_items.find? (fun r => r.user_id == u && r.product_id == p)
      = some ({ id := s.store.nextId, user_id := u, product_id := p
                quantity := 1 } : CartItemRow) := by
    rw [e1c, List.find?_append, h1]
    simp
  have e2 : (addToCart (some u) p st1).1.store.cart_items
      = s.store.cart_items ++
          [({ id := s.store.nextId, user_id := u, product_id := p
              quantity := 2 } : CartItemRow)] := by
    simp only [addToCart, hfind2, fetchCartItems]
    rw [e1c, List.map_append]
    congr 1
    · conv_rhs => rw [← List.map_id s.store.cart_items]
      apply List.map_congr_left
      intro r hr
      have hlt : r.id ≠ s.store.nextId := Nat.ne_of_lt (hfresh r hr)
      simp [hlt]
    · simp
  have hfilter2 : ((s.store.cart_items ++
      [({ id := s.store.nextId, user_id := u, product_id := p
          quantity := 2 } : CartItemRow)]).filter
        (fun r => r.user_id == u && r.product_id == p))
      = [({ id := s.store.nextId, user_id := u, product_id := p
            quantity := 2 } : CartItemRow)] := by
    rw [List.filter_append, hfilter0]
    simp
  refine ⟨?_, ?_, ?_, ?_⟩
  · rw [hfilter1]
    rfl
  · rw [e1c]
    intro r hr hu hp2
    rcases List.mem_append.mp hr with h | h
    · exact absurd ⟨hu, hp2⟩ (hnone r h)
    · simp [List.mem_singleton.mp h]
  · rw [e2, hfilter2]
    rfl
  · rw [e2]
    intro r hr hu hp2
    rcases List.mem_append.mp hr with h | h
    · exact absurd ⟨hu, hp2⟩ (hnone r h)
    · simp [List.mem_singleton.mp h]

/-- C4 witness: user 7 adds product 1 twice starting from the catalog
state with an empty cart. -/
theorem addToCart_twice_witness :
    (∀ r ∈ exCatalogState.store.cart_items, r.id < exCatalogState.store.nextId)
    ∧ (∀ r ∈ exCatalogState.store.cart_items, ¬(r.user_id = 7 ∧ r.product_id = 1))
    ∧ (((addToCart (some 7) 1 exCatalogState).1.store.cart_items.filter
          (fun r => r.user_id == 7 && r.product_id == 1)).length = 1
       ∧ (∀ r ∈ (addToCart (some 7) 1 exCatalogState).1.store.cart_items,
           r.user_id = 7 → r.product_id = 1 → r.quantity = 1)
       ∧ ((addToCart (some 7) 1 (addToCart (some 7) 1 exCatalogState).1).1.store.cart_items.filter
          (fun r => r.user_id == 7 && r.product_id == 1)).length = 1
       ∧ ∀ r ∈ (addToCart (some 7) 1 (addToCart (some 7) 1 exCatalogState).1).1.store.cart_items,
           r.user_id = 7 → r.product_id = 1 → r.quantity = 2) :=
  ⟨by simp [exCatalogState, emptyStore], by simp [exCatalogState, emptyStore],
   addToCart_twice 7 1 exCatalogState (by simp [exCatalogState, emptyStore])
     (by simp [exCatalogState, emptyStore])⟩

/-- C1: for a signed-in user with a non-empty loaded cart, checkout
reports success, appends exactly one order with status pending whose total
is the sum of price × quantity over the cart snapshot, appends one order
line per prior cart line copying its product, quantity and price and
pointing at the created order, and leaves the cart empty afterward — both
the loaded snapshot and the user's rows in the store. -/
theorem checkout_nonempty (u : Nat) (s : CartState) (hne : s.cartItems ≠ []) :
    (checkout (some u) s).2 = [Toast.success "Order placed successfully!"]
    ∧ (checkout (some u) s).1.store.orders = s.store.orders ++
        [{ id := s.store.nextId, user_id := u
           total_amount := (s.cartItems.map fun item => item.price * (item.quantity : ℚ)).sum
           status := OrderStatus.pending }]
    ∧ (∃ newItems : List OrderItemRow,
        (checkout (some u) s).1.store.order_items = s.store.order_items ++ newItems
        ∧ newItems.length = s.cartItems.length
        ∧ ∀ pr ∈ newItems.zip s.cartItems,
            pr.1.order_id = s.store.nextId ∧ pr.1.product_id = pr.2.product_id
            ∧ pr.1.quantity = pr.2.quantity ∧ pr.1.price = pr.2.price)
    ∧ (checkout (some u) s).1.cartItems = []
    ∧ ∀ r ∈ (checkout (some u) s).1.store.cart_items, r.user_id ≠ u := by
  have hie : s.cartItems.isEmpty = false := by
    cases h : s.cartItems with
    | nil => exact absurd h hne
    | cons a l => rfl
  refine ⟨by simp [checkout, hie], ?_, ?_, by simp [checkout, hie, clearCart], ?_⟩
  · rw [← getCartTotal_eq_sum]
    simp [checkout, hie, clearCart]
  · refine ⟨mkOrderItems s.store.nextId (s.store.nextId + 1) s.cartItems, ?_,
      mkOrderItems_length s.store.nextId (s.store.nextId + 1) s.cartItems,
      fun pr hpr => mkOrderItems_zip s.store.nextId (s.store.nextId + 1) s.cartItems pr hpr⟩
    simp [checkout, hie, clearCart]
  · have hc : (checkout (some u) s).1.store.cart_items
        = s.store.cart_items.filter (fun r => !(r.user_id == u)) := by
      simp [checkout, hie, clearCart]
    rw [hc]
    intro r hr
    rcases List.mem_filter.mp hr with ⟨-, hpred⟩
    simpa using hpred

/-- C1 witness: user 7 checks out the loaded two-line example cart. -/
theorem checkout_nonempty_witness :
    exLoadedState.cartItems ≠ []
    ∧ ((checkout (some 7) exLoadedState).2 = [Toast.success "Order placed successfully!"]
       ∧ (checkout (some 7) exLoadedState).1.store.orders = exLoadedState.store.orders ++
           [{ id := exLoadedState.store.nextId, user_id := 7
              total_amount :=
                (exLoadedState.cartItems.map fun item => item.price * (item.quantity : ℚ)).sum
              status := OrderStatus.pending }]
       ∧ (∃ newItems : List OrderItemRow,
           (checkout (some 7) exLoadedState).1.store.order_items
             = exLoadedState.store.order_items ++ newItems
           ∧ newItems.length = exLoadedState.cartItems.length
           ∧ ∀ pr ∈ newItems.zip exLoadedState.cartItems,
               pr.1.order_id = exLoadedState.store.nextId
               ∧ pr.1.product_id = pr.2.product_id
               ∧ pr.1.quantity = pr.2.quantity ∧ pr.1.price = pr.2.price)
       ∧ (checkout (some 7) exLoadedState).1.cartItems = []
       ∧ ∀ r ∈ (checkout (some 7) exLoadedState).1.store.cart_items, r.user_id ≠ 7) :=
  ⟨by simp [exLoadedState, exSnapshot],
   checkout_nonempty 7 exLoadedState (by simp [exLoadedState, exSnapshot])⟩

end Checkrk
